import Mathlib

/-!
# github-metrics: the functions of `main.go` and their properties

The definitions follow `src/main.go` function by function and keep its names.

* Go `string` values are Lean `String`s; `[]byte` values are lists of byte
  values, and a nil slice is the empty list (the code never tells the two
  apart).
* Go `int` is taken at its 64-bit width: values are `Int`s and `+` wraps
  around (`goAdd`).
* `time.Time` is only ever compared with `==`, which Go evaluates field by
  field on the three fields of the struct.
* Everything that the code calls but the repository does not define
  (`http.NewRequest`, `client.Do`, `ioutil.ReadAll`, `json.Unmarshal`, the
  clock behind `today`) is a field of `Env`; the theorems hold for every
  `Env`. The credentials and headers that `request` puts on the request are
  fixed for a process and are part of what `Env.clientDo` stands for.
* A pointer is an `Option`; dereferencing nil is the result
  `Outcome.panicked`.
* Every call of `request` is appended, with what it returned, to a log that
  is threaded through the functions that fetch.
-/

set_option linter.dupNamespace false
set_option maxRecDepth 100000

namespace GithubMetrics

/-! ## Constants (main.go 13-18) -/

def ghAPI : String := "https://api.github.com/repos/"
def vwsPath : String := "/traffic/views"
def cnsPath : String := "/traffic/clones"
def rlsPath : String := "/releases"

/-! ## Go values -/

/-- Go `time.Time`: the three fields that `==` compares. -/
structure Time where
  wall : Nat
  ext : Int
  loc : Nat
  deriving DecidableEq, Repr

/-- A `[]byte`; nil and empty are both `[]`. -/
abbrev Bytes := List Nat

/-- The bytes of an ASCII text. -/
def asciiBytes (s : String) : Bytes := s.data.map Char.toNat

/-- Go `error` values: the ones `fmt.Errorf` makes in `request`, and the ones
that come back from the standard library. -/
inductive GoError where
  | errorf (msg : String)
  | library (msg : String)
  deriving DecidableEq, Repr

/-- Width of Go `int`, as on the 64-bit platforms. -/
def intBits : Nat := 64

/-- Two's-complement reduction of an integer into the range of Go `int`. -/
def wrapInt (x : Int) : Int :=
  (x + 2 ^ (intBits - 1)) % 2 ^ intBits - 2 ^ (intBits - 1)

/-- Go `a + b` on `int`. -/
def goAdd (a b : Int) : Int := wrapInt (a + b)

/-- Result of running a Go function that may dereference a nil pointer. -/
inductive Outcome (α : Type) where
  | returned (a : α)
  | panicked
  deriving DecidableEq, Repr

/-! ## `map[string]string` -/

/-- A Go `map[string]string`: at most one pair per key. -/
abbrev GoMap := List (String × String)

/-- The key set of a map. -/
def GoMap.keys (m : GoMap) : List String := m.map Prod.fst

/-- Go `m[k]`: the stored value, or the zero value `""` for a missing key. -/
def GoMap.get (m : GoMap) (k : String) : String :=
  match m.lookup k with
  | some v => v
  | none => ""

/-- Go `m[k] = v`. -/
def GoMap.set (m : GoMap) (k v : String) : GoMap :=
  if m.any (fun p => p.1 == k) then
    m.map (fun p => if p.1 == k then (k, v) else p)
  else
    m ++ [(k, v)]

/-! ## The record types (main.go 35-39, 109-113, 122-130, 145-153, 168-176) -/

structure Repo where
  Owner : String
  Repo : String
  Date : Time
  Stars : Int
  Forks : Int
  Issues : Int
  Views : Int
  UniqueViews : Int
  Clones : Int
  UniqueClones : Int
  Downloads : Int
  deriving DecidableEq, Repr

structure RepoData where
  Stars : Int
  Forks : Int
  Issues : Int
  deriving DecidableEq, Repr

/-- The element type of `ViewsData.Views` and `ClonesData.Clones`. -/
structure TrafficEntry where
  Timestamp : Time
  Count : Int
  Uniques : Int
  deriving DecidableEq, Repr

structure ViewsData where
  Views : List TrafficEntry
  LatestCount : Int
  LatestUniques : Int
  deriving DecidableEq, Repr

structure ClonesData where
  Clones : List TrafficEntry
  LatestCount : Int
  LatestUniques : Int
  deriving DecidableEq, Repr

structure Asset where
  Name : String
  DownloadCount : Int
  deriving DecidableEq, Repr

structure Release where
  TagName : String
  Name : String
  PublishedAt : Time
  Assets : List Asset
  deriving DecidableEq, Repr

abbrev ReleasesData := List Release

/-! ## `buildURLs` (main.go 41-48) -/

def buildURLs (owner repo : String) : GoMap :=
  let u : GoMap := []
  let u := u.set "repo" (ghAPI ++ owner ++ "/" ++ repo)
  let u := u.set "views" (u.get "repo" ++ vwsPath)
  let u := u.set "clones" (u.get "repo" ++ cnsPath)
  let u := u.set "rels" (u.get "repo" ++ rlsPath)
  u

/-! ## The world outside the repository -/

/-- What `client.Do` hands back when it succeeds: the status code and what
`ioutil.ReadAll(res.Body)` will return (the bytes read and a read error). -/
structure Response where
  StatusCode : Int
  readAll : Bytes × Option GoError
  deriving DecidableEq, Repr

/-- One call of `request`: the URL and the two values it returned. -/
structure Fetch where
  url : String
  body : Bytes
  err : Option GoError
  deriving DecidableEq, Repr

/-- The calls of `request` made so far, oldest first. -/
abbrev Log := List Fetch

/-- The parts of a run that the repository does not define.

* `today`: the value of the package variable `today` (main.go 23).
* `newRequest url`: the error of `http.NewRequest("GET", url, nil)`.
* `clientDo log url`: the result of `client.Do(req)`; it may depend on the
  requests made before.
* `jsonValid data`: whether `data` is syntactically valid JSON.
  `json.Unmarshal` checks this first and returns without touching its target
  when it is not; empty input is never valid.
* `decodeRepoData data p`, and likewise for the other three: the value
  `json.Unmarshal(data, &p)` leaves in `p` on valid input. For the three
  record types `p` is itself a pointer, so the new value can be nil.
  The error `json.Unmarshal` returns is dropped at all four call sites. -/
structure Env where
  today : Time
  newRequest : String → Option GoError
  clientDo : Log → String → Except GoError Response
  jsonValid : Bytes → Bool
  jsonValid_nil : jsonValid [] = false
  decodeRepoData : Bytes → Option RepoData → Option RepoData
  decodeViewsData : Bytes → Option ViewsData → Option ViewsData
  decodeClonesData : Bytes → Option ClonesData → Option ClonesData
  decodeReleasesData : Bytes → ReleasesData → ReleasesData

/-- The effect of `json.Unmarshal(data, &v)` on `v`. -/
def jsonUnmarshal {α : Type} (env : Env) (decode : Bytes → α → α) (data : Bytes) (v : α) : α :=
  if env.jsonValid data then decode data v else v

/-! ## `request` (main.go 85-107) -/

/-- The error made by `fmt.Errorf("%v returned %v", url, res.StatusCode)`. -/
def statusError (url : String) (status : Int) : GoError :=
  GoError.errorf (url ++ " returned " ++ toString status)

/-- The two values `request(url)` returns. -/
def requestResult (env : Env) (log : Log) (url : String) : Bytes × Option GoError :=
  match env.newRequest url with
  | some err => ([], some err)
  | none =>
    match env.clientDo log url with
    | Except.error err => ([], some err)
    | Except.ok res =>
      if res.StatusCode ≠ 200 then
        ([], some (statusError url res.StatusCode))
      else
        match res.readAll with
        | (_, some err) => ([], some err)
        | (bytes, none) => (bytes, none)

/-- The function `request`, with the log of calls. -/
def request (env : Env) (log : Log) (url : String) : (Bytes × Option GoError) × Log :=
  let r := requestResult env log url
  (r, log ++ [{ url := url, body := r.1, err := r.2 }])

/-! ## The four parsers (main.go 115-120, 132-143, 155-166, 178-189) -/

def getRepoData (env : Env) (log : Log) (url : String) :
    (Option RepoData × Option GoError) × Log :=
  let rd : Option RepoData := some { Stars := 0, Forks := 0, Issues := 0 }
  let ((b, err), log) := request env log url
  let rd := jsonUnmarshal env env.decodeRepoData b rd
  ((rd, err), log)

/-- The loop of `getViewsData`: one iteration per entry, in order. -/
def viewsLoop (day : Time) (vs : ViewsData) : ViewsData :=
  vs.Views.foldl
    (fun acc d =>
      if d.Timestamp = day then
        { acc with LatestCount := d.Count, LatestUniques := d.Uniques }
      else acc)
    vs

def getViewsData (env : Env) (log : Log) (url : String) (day : Time) :
    Outcome (Option ViewsData × Option GoError) × Log :=
  let vs : Option ViewsData := some { Views := [], LatestCount := 0, LatestUniques := 0 }
  let ((b, err), log) := request env log url
  let vs := jsonUnmarshal env env.decodeViewsData b vs
  match vs with
  | none => (Outcome.panicked, log)
  | some vs => (Outcome.returned (some (viewsLoop day vs), err), log)

/-- The loop of `getClonesData`: one iteration per entry, in order. -/
def clonesLoop (day : Time) (cs : ClonesData) : ClonesData :=
  cs.Clones.foldl
    (fun acc d =>
      if d.Timestamp = day then
        { acc with LatestCount := d.Count, LatestUniques := d.Uniques }
      else acc)
    cs

def getClonesData (env : Env) (log : Log) (url : String) (day : Time) :
    Outcome (Option ClonesData × Option GoError) × Log :=
  let cs : Option ClonesData := some { Clones := [], LatestCount := 0, LatestUniques := 0 }
  let ((b, err), log) := request env log url
  let cs := jsonUnmarshal env env.decodeClonesData b cs
  match cs with
  | none => (Outcome.panicked, log)
  | some cs => (Outcome.returned (some (clonesLoop day cs), err), log)

/-- The two nested loops of `getDownloadCount`, started at `dls`. -/
def downloadsLoop (rs : ReleasesData) (dls : Int) : Int :=
  rs.foldl (fun dls r => r.Assets.foldl (fun dls a => goAdd dls a.DownloadCount) dls) dls

def getDownloadCount (env : Env) (log : Log) (url : String) : (Int × Option GoError) × Log :=
  let dls : Int := 0
  let rs : ReleasesData := []
  let ((b, err), log) := request env log url
  let rs := jsonUnmarshal env env.decodeReleasesData b rs
  ((downloadsLoop rs dls, err), log)

/-! ## `getData` (main.go 50-83) -/

def getData (env : Env) (log : Log) (owner repo : String) (day : Time) :
    Outcome (Option Repo × Option GoError) × Log :=
  let urls := buildURLs owner repo
  match getRepoData env log (urls.get "repo") with
  | ((_, some err), log) => (Outcome.returned (none, some err), log)
  | ((rd, none), log) =>
    match getViewsData env log (urls.get "views") day with
    | (Outcome.panicked, log) => (Outcome.panicked, log)
    | (Outcome.returned (_, some err), log) => (Outcome.returned (none, some err), log)
    | (Outcome.returned (vc, none), log) =>
      match getClonesData env log (urls.get "clones") day with
      | (Outcome.panicked, log) => (Outcome.panicked, log)
      | (Outcome.returned (_, some err), log) => (Outcome.returned (none, some err), log)
      | (Outcome.returned (cc, none), log) =>
        match getDownloadCount env log (urls.get "rels") with
        | ((_, some err), log) => (Outcome.returned (none, some err), log)
        | ((dc, none), log) =>
          match rd, vc, cc with
          | some rd, some vc, some cc =>
            (Outcome.returned
              (some
                { Owner := owner
                  Repo := repo
                  Date := env.today
                  Stars := rd.Stars
                  Forks := rd.Forks
                  Issues := rd.Issues
                  Views := vc.LatestCount
                  UniqueViews := vc.LatestUniques
                  Clones := cc.LatestCount
                  UniqueClones := cc.LatestUniques
                  Downloads := dc },
                none),
              log)
          | _, _, _ => (Outcome.panicked, log)

/-! ## What the specification calls the result of the parsers -/

/-- The last entry of a series, in sequence order, whose timestamp equals `day`. -/
def lastMatch (series : List TrafficEntry) (day : Time) : Option TrafficEntry :=
  (series.filter (fun d => decide (d.Timestamp = day))).getLast?

/-- The sum of `download_count` over every asset of every release, as an
integer without bounds. -/
def totalDownloads (rs : ReleasesData) : Int :=
  ((rs.map (fun r => r.Assets)).flatten.map (fun a => a.DownloadCount)).sum

/-- The four URLs of `getData`, in the order in which it fetches them. -/
def fetchOrder (owner repo : String) : List String :=
  [(buildURLs owner repo).get "repo", (buildURLs owner repo).get "views",
    (buildURLs owner repo).get "clones", (buildURLs owner repo).get "rels"]

/-- The record `rd` of `getRepoData` after its `json.Unmarshal`. -/
def decodedRepo (env : Env) (log : Log) (url : String) : Option RepoData :=
  jsonUnmarshal env env.decodeRepoData (requestResult env log url).1
    (some { Stars := 0, Forks := 0, Issues := 0 })

/-- The record `vs` of `getViewsData` after its `json.Unmarshal`. -/
def decodedViews (env : Env) (log : Log) (url : String) : Option ViewsData :=
  jsonUnmarshal env env.decodeViewsData (requestResult env log url).1
    (some { Views := [], LatestCount := 0, LatestUniques := 0 })

/-- The record `cs` of `getClonesData` after its `json.Unmarshal`. -/
def decodedClones (env : Env) (log : Log) (url : String) : Option ClonesData :=
  jsonUnmarshal env env.decodeClonesData (requestResult env log url).1
    (some { Clones := [], LatestCount := 0, LatestUniques := 0 })

/-- The list `rs` of `getDownloadCount` after its `json.Unmarshal`. -/
def decodedReleases (env : Env) (log : Log) (url : String) : ReleasesData :=
  jsonUnmarshal env env.decodeReleasesData (requestResult env log url).1 []

/-- The pair of derived fields after the selection loop has run over
`series`, started from `(c, u)`. -/
def latestOf (day : Time) (series : List TrafficEntry) (c u : Int) : Int × Int :=
  series.foldl (fun acc d => if d.Timestamp = day then (d.Count, d.Uniques) else acc) (c, u)

/-! ## Concrete worlds for the examples

The bodies are JSON texts; the decoders below list, for each of them, the
value that `encoding/json` stores for the record type in question: members
are matched to fields by tag or by field name, members without a field are
skipped, fields without a member keep their value, and the literal null
stored through a pointer to a pointer sets the inner pointer to nil. -/

/-- The instant 2017-01-25T00:00:00Z, as `time.Date` and the JSON decoder build it. -/
def jan25 : Time := { wall := 0, ext := 63620899200, loc := 0 }
/-- The instant 2017-01-26T00:00:00Z, as `time.Date` and the JSON decoder build it. -/
def jan26 : Time := { wall := 0, ext := 63620985600, loc := 0 }
/-- The instant 2017-01-27T00:00:00Z, as `time.Date` and the JSON decoder build it. -/
def jan27 : Time := { wall := 0, ext := 63621072000, loc := 0 }
/-- The instant 2017-01-28T00:00:00Z, as `time.Date` and the JSON decoder build it. -/
def jan28 : Time := { wall := 0, ext := 63621158400, loc := 0 }

def repoBody : Bytes :=
  asciiBytes "\x7b\"stargazers_count\":663,\"forks_count\":50,\"open_issues_count\":20\x7d"

def viewsBody : Bytes :=
  asciiBytes ("\x7b\"count\":82,\"uniques\":60,\"views\":[" ++
    "\x7b\"timestamp\":\"2017-01-27T00:00:00Z\",\"count\":9,\"uniques\":6\x7d," ++
    "\x7b\"timestamp\":\"2017-01-26T00:00:00Z\",\"count\":46,\"uniques\":34\x7d," ++
    "\x7b\"timestamp\":\"2017-01-27T00:00:00Z\",\"count\":27,\"uniques\":20\x7d]\x7d")

def clonesBody : Bytes :=
  asciiBytes ("\x7b\"count\":7,\"uniques\":4,\"clones\":[" ++
    "\x7b\"timestamp\":\"2017-01-27T00:00:00Z\",\"count\":7,\"uniques\":4\x7d]\x7d")

def relsBody : Bytes :=
  asciiBytes ("[\x7b\"assets\":[\x7b\"download_count\":5\x7d]\x7d," ++
    "\x7b\"assets\":[\x7b\"download_count\":3\x7d,\x7b\"download_count\":2\x7d]\x7d]")

def nullBody : Bytes := asciiBytes "null"

def presetBody : Bytes :=
  asciiBytes "\x7b\"views\":[],\"LatestCount\":7,\"LatestUniques\":3\x7d"

def hugeRelsBody : Bytes :=
  asciiBytes ("[\x7b\"assets\":[\x7b\"download_count\":9223372036854775807\x7d," ++
    "\x7b\"download_count\":1\x7d]\x7d]")

def malformedBody : Bytes := asciiBytes "<html>"

def sampleValid (data : Bytes) : Bool :=
  decide (data ∈ [repoBody, viewsBody, clonesBody, relsBody, nullBody, presetBody, hugeRelsBody])

def sampleDecodeRepoData (data : Bytes) (p : Option RepoData) : Option RepoData :=
  if data = nullBody then none
  else if data = repoBody then some { Stars := 663, Forks := 50, Issues := 20 }
  else p

def sampleDecodeViewsData (data : Bytes) (p : Option ViewsData) : Option ViewsData :=
  if data = nullBody then none
  else if data = viewsBody then
    some
      { Views :=
          [{ Timestamp := jan27, Count := 9, Uniques := 6 },
            { Timestamp := jan26, Count := 46, Uniques := 34 },
            { Timestamp := jan27, Count := 27, Uniques := 20 }]
        LatestCount := 0
        LatestUniques := 0 }
  else if data = presetBody then some { Views := [], LatestCount := 7, LatestUniques := 3 }
  else p

def sampleDecodeClonesData (data : Bytes) (p : Option ClonesData) : Option ClonesData :=
  if data = nullBody then none
  else if data = clonesBody then
    some
      { Clones := [{ Timestamp := jan27, Count := 7, Uniques := 4 }]
        LatestCount := 0
        LatestUniques := 0 }
  else if data = presetBody then
    some
      { Clones := match p with
          | some cs => cs.Clones
          | none => []
        LatestCount := 7
        LatestUniques := 3 }
  else p

def zeroTime : Time := { wall := 0, ext := 0, loc := 0 }

def sampleDecodeReleasesData (data : Bytes) (p : ReleasesData) : ReleasesData :=
  if data = nullBody then []
  else if data = relsBody then
    [{ TagName := "", Name := "", PublishedAt := zeroTime
       Assets := [{ Name := "", DownloadCount := 5 }] },
      { TagName := "", Name := "", PublishedAt := zeroTime
        Assets := [{ Name := "", DownloadCount := 3 }, { Name := "", DownloadCount := 2 }] }]
  else if data = hugeRelsBody then
    [{ TagName := "", Name := "", PublishedAt := zeroTime
       Assets :=
        [{ Name := "", DownloadCount := 9223372036854775807 },
          { Name := "", DownloadCount := 1 }] }]
  else p

/-- A world that answers every request from the table `serve` (URL, status,
body), with 404 for a URL that is not listed, run on 2017-01-28. -/
def sampleEnv (serve : List (String × Int × Bytes)) : Env where
  today := jan28
  newRequest := fun _ => none
  clientDo := fun _ url =>
    match serve.lookup url with
    | some (status, body) => Except.ok { StatusCode := status, readAll := (body, none) }
    | none => Except.ok { StatusCode := 404, readAll := ([], none) }
  jsonValid := sampleValid
  jsonValid_nil := by decide
  decodeRepoData := sampleDecodeRepoData
  decodeViewsData := sampleDecodeViewsData
  decodeClonesData := sampleDecodeClonesData
  decodeReleasesData := sampleDecodeReleasesData

def hoverflyURL : String := "https://api.github.com/repos/spectolabs/hoverfly"

/-- All four endpoints of spectolabs/hoverfly answer 200. -/
def hoverflyServe : List (String × Int × Bytes) :=
  [(hoverflyURL, 200, repoBody),
    (hoverflyURL ++ "/traffic/views", 200, viewsBody),
    (hoverflyURL ++ "/traffic/clones", 200, clonesBody),
    (hoverflyURL ++ "/releases", 200, relsBody)]

/-- As `hoverflyServe`, but the clones endpoint answers 500. -/
def clonesDownServe : List (String × Int × Bytes) :=
  [(hoverflyURL, 200, repoBody),
    (hoverflyURL ++ "/traffic/views", 200, viewsBody),
    (hoverflyURL ++ "/traffic/clones", 500, malformedBody),
    (hoverflyURL ++ "/releases", 200, relsBody)]

/-- As `hoverflyServe`, but the metadata endpoint answers 200 with the body
null. -/
def nullRepoServe : List (String × Int × Bytes) :=
  [(hoverflyURL, 200, nullBody),
    (hoverflyURL ++ "/traffic/views", 200, viewsBody),
    (hoverflyURL ++ "/traffic/clones", 200, clonesBody),
    (hoverflyURL ++ "/releases", 200, relsBody)]

/-- The views endpoint answers 200 with a body that has no entries and
carries members named after the two derived fields. -/
def presetServe : List (String × Int × Bytes) :=
  [(hoverflyURL ++ "/traffic/views", 200, presetBody)]

/-- The releases endpoint answers 200 with two download counts whose sum is
2^63. -/
def hugeServe : List (String × Int × Bytes) :=
  [(hoverflyURL ++ "/releases", 200, hugeRelsBody)]

/-! ## Facts about strings used for the URL builder -/

theorem list_split_at_first (sep : Char) :
    ∀ (a c b d : List Char), sep ∉ a → sep ∉ c →
      a ++ sep :: b = c ++ sep :: d → a = c ∧ b = d := by
  intro a
  induction a with
  | nil =>
    intro c b d _ hc h
    cases c with
    | nil => simpa using h
    | cons y ys =>
      simp only [List.nil_append, List.cons_append, List.cons.injEq] at h
      exact absurd (h.1 ▸ List.mem_cons_self sep ys) hc
  | cons x xs ih =>
    intro c b d ha hc h
    cases c with
    | nil =>
      simp only [List.nil_append, List.cons_append, List.cons.injEq] at h
      exact absurd (h.1 ▸ List.mem_cons_self sep xs) ha
    | cons y ys =>
      simp only [List.cons_append, List.cons.injEq] at h
      have hxs : sep ∉ xs := fun hm => ha (List.mem_cons_of_mem _ hm)
      have hys : sep ∉ ys := fun hm => hc (List.mem_cons_of_mem _ hm)
      obtain ⟨h1, h2⟩ := ih ys b d hxs hys h.2
      exact ⟨by rw [h.1, h1], h2⟩

theorem string_append_right_cancel (x y s : String) (h : x ++ s = y ++ s) : x = y := by
  apply String.ext
  have h2 := congrArg String.data h
  simp only [String.data_append] at h2
  exact List.append_cancel_right h2

theorem repoURL_injective (o1 r1 o2 r2 : String)
    (ho1 : '/' ∉ o1.data) (ho2 : '/' ∉ o2.data)
    (h : ghAPI ++ o1 ++ "/" ++ r1 = ghAPI ++ o2 ++ "/" ++ r2) : o1 = o2 ∧ r1 = r2 := by
  have h2 := congrArg String.data h
  simp only [String.data_append, List.append_assoc] at h2
  have h3 := List.append_cancel_left h2
  have h4 : o1.data ++ '/' :: r1.data = o2.data ++ '/' :: r2.data := h3
  obtain ⟨ha, hb⟩ := list_split_at_first '/' _ _ _ _ ho1 ho2 h4
  exact ⟨String.ext ha, String.ext hb⟩

theorem buildURLs_get_repo (o r : String) :
    (buildURLs o r).get "repo" = ghAPI ++ o ++ "/" ++ r := by
  simp [buildURLs, GoMap.set, GoMap.get, List.lookup]

theorem buildURLs_get_views (o r : String) :
    (buildURLs o r).get "views" = ghAPI ++ o ++ "/" ++ r ++ vwsPath := by
  simp [buildURLs, GoMap.set, GoMap.get, List.lookup]

theorem buildURLs_get_clones (o r : String) :
    (buildURLs o r).get "clones" = ghAPI ++ o ++ "/" ++ r ++ cnsPath := by
  simp [buildURLs, GoMap.set, GoMap.get, List.lookup]

theorem buildURLs_get_rels (o r : String) :
    (buildURLs o r).get "rels" = ghAPI ++ o ++ "/" ++ r ++ rlsPath := by
  simp [buildURLs, GoMap.set, GoMap.get, List.lookup]

/-! ## The URL builder -/

/-- C1: for every owner and repo, `buildURLs` returns a map whose keys are
exactly "repo", "views", "clones" and "rels" (each once); "repo" is bound to
the API base followed by owner, "/" and repo, and the other three to that URL
followed by "/traffic/views", "/traffic/clones" and "/releases". -/
theorem buildURLs_four_keys (owner repo : String) :
    (buildURLs owner repo).keys.Nodup ∧
    (∀ k, k ∈ (buildURLs owner repo).keys ↔
      (k = "repo" ∨ k = "views" ∨ k = "clones" ∨ k = "rels")) ∧
    (buildURLs owner repo).lookup "repo"
      = some ("https://api.github.com/repos/" ++ owner ++ "/" ++ repo) ∧
    (buildURLs owner repo).lookup "views"
      = some ("https://api.github.com/repos/" ++ owner ++ "/" ++ repo ++ "/traffic/views") ∧
    (buildURLs owner repo).lookup "clones"
      = some ("https://api.github.com/repos/" ++ owner ++ "/" ++ repo ++ "/traffic/clones") ∧
    (buildURLs owner repo).lookup "rels"
      = some ("https://api.github.com/repos/" ++ owner ++ "/" ++ repo ++ "/releases") := by
  simp [buildURLs, GoMap.set, GoMap.get, GoMap.keys, List.lookup, ghAPI, vwsPath, cnsPath,
    rlsPath]

/-- C10: on names without a "/" character `buildURLs` is injective through
each of its four URLs: equal "repo" (or "views", "clones", "rels") URLs force
equal owners and equal repos. Without the precondition it is not: ("a/b", "c")
and ("a", "b/c") give the same four URLs. -/
theorem buildURLs_injective_on_slash_free :
    (∀ o1 r1 o2 r2 : String,
      '/' ∉ o1.data → '/' ∉ r1.data → '/' ∉ o2.data → '/' ∉ r2.data →
      ((buildURLs o1 r1).get "repo" = (buildURLs o2 r2).get "repo" ∨
        (buildURLs o1 r1).get "views" = (buildURLs o2 r2).get "views" ∨
        (buildURLs o1 r1).get "clones" = (buildURLs o2 r2).get "clones" ∨
        (buildURLs o1 r1).get "rels" = (buildURLs o2 r2).get "rels") →
      o1 = o2 ∧ r1 = r2) ∧
    (buildURLs "a/b" "c" = buildURLs "a" "b/c" ∧
      (("a/b", "c") : String × String) ≠ ("a", "b/c")) := by
  refine ⟨?_, by decide, by decide⟩
  intro o1 r1 o2 r2 ho1 _ ho2 _ h
  simp only [buildURLs_get_repo, buildURLs_get_views, buildURLs_get_clones,
    buildURLs_get_rels] at h
  rcases h with h | h | h | h
  · exact repoURL_injective o1 r1 o2 r2 ho1 ho2 h
  · exact repoURL_injective o1 r1 o2 r2 ho1 ho2 (string_append_right_cancel _ _ _ h)
  · exact repoURL_injective o1 r1 o2 r2 ho1 ho2 (string_append_right_cancel _ _ _ h)
  · exact repoURL_injective o1 r1 o2 r2 ho1 ho2 (string_append_right_cancel _ _ _ h)

/-- Witness for C10 at ("spectolabs", "hoverfly"): the "views" URL determines
the pair. -/
theorem buildURLs_injective_on_slash_free_witness :
    ('/' ∉ "spectolabs".data ∧ '/' ∉ "hoverfly".data) ∧
    ("spectolabs" = "spectolabs" ∧ "hoverfly" = "hoverfly") :=
  ⟨⟨by decide, by decide⟩,
    buildURLs_injective_on_slash_free.1 "spectolabs" "hoverfly" "spectolabs" "hoverfly"
      (by decide) (by decide) (by decide) (by decide) (Or.inr (Or.inl rfl))⟩

/-! ## The fetcher -/

theorem requestResult_nil_of_err (env : Env) (log : Log) (url : String) (e : GoError)
    (h : (requestResult env log url).2 = some e) : (requestResult env log url).1 = [] := by
  revert h
  unfold requestResult
  cases env.newRequest url with
  | some err => simp
  | none =>
    cases env.clientDo log url with
    | error err => simp
    | ok res =>
      by_cases hs : res.StatusCode = 200
      · rcases hr : res.readAll with ⟨bytes, _ | err⟩ <;> simp [hs, hr]
      · simp [hs]

theorem jsonUnmarshal_nil {α : Type} (env : Env) (decode : Bytes → α → α) (v : α) :
    jsonUnmarshal env decode [] v = v := by
  simp [jsonUnmarshal, env.jsonValid_nil]

theorem request_fst (env : Env) (log : Log) (url : String) :
    (request env log url).1 = requestResult env log url := rfl

theorem request_snd (env : Env) (log : Log) (url : String) :
    (request env log url).2
      = log ++ [{ url := url, body := (requestResult env log url).1,
                  err := (requestResult env log url).2 }] := rfl

/-- C8: when the request is built, sent and read without error and the
response has status `s` and body `b`, `request` returns `(b, nil)` exactly
when `s` is 200; for every other status it returns no bytes and the error
whose message is the URL, " returned " and the status code in decimal, which
has no part of the body in it. -/
theorem request_status_200_iff (env : Env) (log : Log) (url : String) (s : Int) (b : Bytes)
    (hnew : env.newRequest url = none)
    (hdo : env.clientDo log url = Except.ok { StatusCode := s, readAll := (b, none) }) :
    ((request env log url).1 = (b, none) ↔ s = 200) ∧
    (s ≠ 200 →
      (request env log url).1
        = ([], some (GoError.errorf (url ++ " returned " ++ toString s)))) := by
  by_cases hs : s = 200
  · subst hs
    simp [request, requestResult, hnew, hdo]
  · simp [request, requestResult, hnew, hdo, hs, statusError]

/-- Witness for C8: a 404 answer for http://hoverfly.io/blah. -/
theorem request_status_200_iff_witness :
    (request (sampleEnv []) [] "http://hoverfly.io/blah").1
      = ([], some (GoError.errorf "http://hoverfly.io/blah returned 404")) :=
  (request_status_200_iff (sampleEnv []) [] "http://hoverfly.io/blah" 404 [] rfl rfl).2
    (by decide)

/-! ## The selection loop of the traffic parsers -/

theorem latestOf_append (day : Time) (l : List TrafficEntry) (x : TrafficEntry) (c u : Int) :
    latestOf day (l ++ [x]) c u
      = if x.Timestamp = day then (x.Count, x.Uniques) else latestOf day l c u := by
  simp [latestOf, List.foldl_append]

theorem lastMatch_append (day : Time) (l : List TrafficEntry) (x : TrafficEntry) :
    lastMatch (l ++ [x]) day = if x.Timestamp = day then some x else lastMatch l day := by
  unfold lastMatch
  by_cases hx : x.Timestamp = day
  · simp [List.filter_append, hx, List.filter_cons]
  · simp [List.filter_append, hx, List.filter_cons]

theorem latestOf_eq_lastMatch (day : Time) (l : List TrafficEntry) (c u : Int) :
    latestOf day l c u
      = match lastMatch l day with
        | some e => (e.Count, e.Uniques)
        | none => (c, u) := by
  induction l using List.reverseRecOn with
  | nil => simp [latestOf, lastMatch]
  | append_singleton l x ih =>
    rw [latestOf_append, lastMatch_append]
    by_cases hx : x.Timestamp = day
    · simp [hx]
    · simp [hx, ih]

theorem lastMatch_isSome_of_mem (day : Time) (l : List TrafficEntry)
    (h : ∃ d ∈ l, d.Timestamp = day) : ∃ e, lastMatch l day = some e := by
  obtain ⟨d, hd, hday⟩ := h
  have hmem : d ∈ l.filter (fun d => decide (d.Timestamp = day)) := by
    simp [List.mem_filter, hd, hday]
  unfold lastMatch
  cases hl : (l.filter (fun d => decide (d.Timestamp = day))).getLast? with
  | some e => exact ⟨e, rfl⟩
  | none =>
    rw [List.getLast?_eq_none_iff] at hl
    rw [hl] at hmem
    cases hmem

theorem lastMatch_none_of_no_match (day : Time) (l : List TrafficEntry)
    (h : ∀ d ∈ l, d.Timestamp ≠ day) : lastMatch l day = none := by
  unfold lastMatch
  have : l.filter (fun d => decide (d.Timestamp = day)) = [] := by
    rw [List.filter_eq_nil_iff]
    intro d hd
    simpa using h d hd
  rw [this]
  rfl

theorem lastMatch_unique (day : Time) (pre post : List TrafficEntry) (e : TrafficEntry)
    (he : e.Timestamp = day) (hpost : ∀ d ∈ post, d.Timestamp ≠ day) :
    lastMatch (pre ++ e :: post) day = some e := by
  unfold lastMatch
  have hp : post.filter (fun d => decide (d.Timestamp = day)) = [] := by
    rw [List.filter_eq_nil_iff]
    intro d hd
    simpa using hpost d hd
  rw [List.filter_append, List.filter_cons, hp]
  simp [he]

theorem viewsLoop_eq (day : Time) (vs : ViewsData) :
    viewsLoop day vs
      = { Views := vs.Views
          LatestCount := (latestOf day vs.Views vs.LatestCount vs.LatestUniques).1
          LatestUniques := (latestOf day vs.Views vs.LatestCount vs.LatestUniques).2 } := by
  have key : ∀ (l : List TrafficEntry) (acc : ViewsData),
      l.foldl
        (fun acc d =>
          if d.Timestamp = day then
            { acc with LatestCount := d.Count, LatestUniques := d.Uniques }
          else acc)
        acc
        = { Views := acc.Views
            LatestCount := (latestOf day l acc.LatestCount acc.LatestUniques).1
            LatestUniques := (latestOf day l acc.LatestCount acc.LatestUniques).2 } := by
    intro l
    induction l with
    | nil => intro acc; simp [latestOf]
    | cons x xs ih =>
      intro acc
      rw [List.foldl_cons, ih]
      by_cases hx : x.Timestamp = day
      · simp [latestOf, hx]
      · simp [latestOf, hx]
  exact key vs.Views vs

theorem clonesLoop_eq (day : Time) (cs : ClonesData) :
    clonesLoop day cs
      = { Clones := cs.Clones
          LatestCount := (latestOf day cs.Clones cs.LatestCount cs.LatestUniques).1
          LatestUniques := (latestOf day cs.Clones cs.LatestCount cs.LatestUniques).2 } := by
  have key : ∀ (l : List TrafficEntry) (acc : ClonesData),
      l.foldl
        (fun acc d =>
          if d.Timestamp = day then
            { acc with LatestCount := d.Count, LatestUniques := d.Uniques }
          else acc)
        acc
        = { Clones := acc.Clones
            LatestCount := (latestOf day l acc.LatestCount acc.LatestUniques).1
            LatestUniques := (latestOf day l acc.LatestCount acc.LatestUniques).2 } := by
    intro l
    induction l with
    | nil => intro acc; simp [latestOf]
    | cons x xs ih =>
      intro acc
      rw [List.foldl_cons, ih]
      by_cases hx : x.Timestamp = day
      · simp [latestOf, hx]
      · simp [latestOf, hx]
  exact key cs.Clones cs

theorem getViewsData_eq (env : Env) (log : Log) (url : String) (day : Time) :
    getViewsData env log url day
      = (match decodedViews env log url with
          | none => Outcome.panicked
          | some vs => Outcome.returned (some (viewsLoop day vs), (requestResult env log url).2),
         (request env log url).2) := by
  unfold getViewsData decodedViews
  simp only [request]
  split <;> rename_i h <;> simp [h]

theorem getClonesData_eq (env : Env) (log : Log) (url : String) (day : Time) :
    getClonesData env log url day
      = (match decodedClones env log url with
          | none => Outcome.panicked
          | some cs => Outcome.returned (some (clonesLoop day cs), (requestResult env log url).2),
         (request env log url).2) := by
  unfold getClonesData decodedClones
  simp only [request]
  split <;> rename_i h <;> simp [h]

theorem getViewsData_of_decoded (env : Env) (log : Log) (url : String) (day : Time)
    (vs : ViewsData) (h : decodedViews env log url = some vs) :
    (getViewsData env log url day).1
      = Outcome.returned
          (some
            { Views := vs.Views
              LatestCount := (latestOf day vs.Views vs.LatestCount vs.LatestUniques).1
              LatestUniques := (latestOf day vs.Views vs.LatestCount vs.LatestUniques).2 },
            (requestResult env log url).2) := by
  rw [getViewsData_eq, h]
  simp only [viewsLoop_eq]

theorem getClonesData_of_decoded (env : Env) (log : Log) (url : String) (day : Time)
    (cs : ClonesData) (h : decodedClones env log url = some cs) :
    (getClonesData env log url day).1
      = Outcome.returned
          (some
            { Clones := cs.Clones
              LatestCount := (latestOf day cs.Clones cs.LatestCount cs.LatestUniques).1
              LatestUniques := (latestOf day cs.Clones cs.LatestCount cs.LatestUniques).2 },
            (requestResult env log url).2) := by
  rw [getClonesData_eq, h]
  simp only [clonesLoop_eq]

/-- When no entry of the decoded series has the target day, `getViewsData`
returns the decoded record as it is, the two derived fields included, and
the error of the fetch. -/
theorem getViewsData_no_match (env : Env) (log : Log) (url : String) (day : Time)
    (vs : ViewsData) (h : decodedViews env log url = some vs)
    (hno : ∀ d ∈ vs.Views, d.Timestamp ≠ day) :
    (getViewsData env log url day).1
      = Outcome.returned (some vs, (requestResult env log url).2) := by
  rw [getViewsData_of_decoded env log url day vs h, latestOf_eq_lastMatch,
    lastMatch_none_of_no_match day vs.Views hno]

/-- When no entry of the decoded series has the target day, `getClonesData`
returns the decoded record as it is, the two derived fields included, and
the error of the fetch. -/
theorem getClonesData_no_match (env : Env) (log : Log) (url : String) (day : Time)
    (cs : ClonesData) (h : decodedClones env log url = some cs)
    (hno : ∀ d ∈ cs.Clones, d.Timestamp ≠ day) :
    (getClonesData env log url day).1
      = Outcome.returned (some cs, (requestResult env log url).2) := by
  rw [getClonesData_of_decoded env log url day cs h, latestOf_eq_lastMatch,
    lastMatch_none_of_no_match day cs.Clones hno]

/-- C2: for every decoded traffic series and every target day that at least
one entry carries, `getViewsData` and `getClonesData` return the record with
`LatestCount` and `LatestUniques` set to the count and uniques of the last
entry, in sequence order, whose timestamp equals the target day; when the
series has exactly one entry with the target day, at any position, these are
the count and uniques of that entry. -/
theorem traffic_latest_is_last_match :
    (∀ (env : Env) (log : Log) (url : String) (day : Time) (vs : ViewsData),
      decodedViews env log url = some vs →
      (∃ d ∈ vs.Views, d.Timestamp = day) →
      ∃ e, lastMatch vs.Views day = some e ∧
        (getViewsData env log url day).1
          = Outcome.returned
              (some { Views := vs.Views, LatestCount := e.Count, LatestUniques := e.Uniques },
                (requestResult env log url).2)) ∧
    (∀ (env : Env) (log : Log) (url : String) (day : Time) (cs : ClonesData),
      decodedClones env log url = some cs →
      (∃ d ∈ cs.Clones, d.Timestamp = day) →
      ∃ e, lastMatch cs.Clones day = some e ∧
        (getClonesData env log url day).1
          = Outcome.returned
              (some { Clones := cs.Clones, LatestCount := e.Count, LatestUniques := e.Uniques },
                (requestResult env log url).2)) ∧
    (∀ (env : Env) (log : Log) (url : String) (day : Time) (vs : ViewsData)
        (pre post : List TrafficEntry) (e : TrafficEntry),
      decodedViews env log url = some vs →
      vs.Views = pre ++ e :: post →
      e.Timestamp = day →
      (∀ d ∈ pre, d.Timestamp ≠ day) →
      (∀ d ∈ post, d.Timestamp ≠ day) →
      (getViewsData env log url day).1
        = Outcome.returned
            (some { Views := vs.Views, LatestCount := e.Count, LatestUniques := e.Uniques },
              (requestResult env log url).2)) ∧
    (∀ (env : Env) (log : Log) (url : String) (day : Time) (cs : ClonesData)
        (pre post : List TrafficEntry) (e : TrafficEntry),
      decodedClones env log url = some cs →
      cs.Clones = pre ++ e :: post →
      e.Timestamp = day →
      (∀ d ∈ pre, d.Timestamp ≠ day) →
      (∀ d ∈ post, d.Timestamp ≠ day) →
      (getClonesData env log url day).1
        = Outcome.returned
            (some { Clones := cs.Clones, LatestCount := e.Count, LatestUniques := e.Uniques },
              (requestResult env log url).2)) := by
  refine ⟨?_, ?_, ?_, ?_⟩
  · intro env log url day vs hdec hex
    obtain ⟨e, he⟩ := lastMatch_isSome_of_mem day vs.Views hex
    refine ⟨e, he, ?_⟩
    rw [getViewsData_of_decoded env log url day vs hdec, latestOf_eq_lastMatch, he]
  · intro env log url day cs hdec hex
    obtain ⟨e, he⟩ := lastMatch_isSome_of_mem day cs.Clones hex
    refine ⟨e, he, ?_⟩
    rw [getClonesData_of_decoded env log url day cs hdec, latestOf_eq_lastMatch, he]
  · intro env log url day vs pre post e hdec hsplit he _ hpost
    rw [getViewsData_of_decoded env log url day vs hdec, latestOf_eq_lastMatch, hsplit,
      lastMatch_unique day pre post e he hpost]
  · intro env log url day cs pre post e hdec hsplit he _ hpost
    rw [getClonesData_of_decoded env log url day cs hdec, latestOf_eq_lastMatch, hsplit,
      lastMatch_unique day pre post e he hpost]

/-- Witness for C2 on the sample views body: 2017-01-27 occurs twice and the
later entry (27, 20) wins; 2017-01-26 occurs once, in the middle, and gives
(46, 34). -/
theorem traffic_latest_is_last_match_witness :
    (∃ e,
      lastMatch
          [{ Timestamp := jan27, Count := 9, Uniques := 6 },
            { Timestamp := jan26, Count := 46, Uniques := 34 },
            { Timestamp := jan27, Count := 27, Uniques := 20 }]
          jan27 = some e ∧
        (getViewsData (sampleEnv hoverflyServe) [] (hoverflyURL ++ "/traffic/views") jan27).1
          = Outcome.returned
              (some
                { Views :=
                    [{ Timestamp := jan27, Count := 9, Uniques := 6 },
                      { Timestamp := jan26, Count := 46, Uniques := 34 },
                      { Timestamp := jan27, Count := 27, Uniques := 20 }]
                  LatestCount := e.Count
                  LatestUniques := e.Uniques },
                (requestResult (sampleEnv hoverflyServe) []
                  (hoverflyURL ++ "/traffic/views")).2)) ∧
    (getViewsData (sampleEnv hoverflyServe) [] (hoverflyURL ++ "/traffic/views") jan26).1
      = Outcome.returned
          (some
            { Views :=
                [{ Timestamp := jan27, Count := 9, Uniques := 6 },
                  { Timestamp := jan26, Count := 46, Uniques := 34 },
                  { Timestamp := jan27, Count := 27, Uniques := 20 }]
              LatestCount := 46
              LatestUniques := 34 },
            none) :=
  ⟨traffic_latest_is_last_match.1 (sampleEnv hoverflyServe) []
      (hoverflyURL ++ "/traffic/views") jan27
      { Views :=
          [{ Timestamp := jan27, Count := 9, Uniques := 6 },
            { Timestamp := jan26, Count := 46, Uniques := 34 },
            { Timestamp := jan27, Count := 27, Uniques := 20 }]
        LatestCount := 0
        LatestUniques := 0 }
      (by decide) ⟨{ Timestamp := jan27, Count := 9, Uniques := 6 }, by decide, rfl⟩,
    traffic_latest_is_last_match.2.2.1 (sampleEnv hoverflyServe) []
      (hoverflyURL ++ "/traffic/views") jan26
      { Views :=
          [{ Timestamp := jan27, Count := 9, Uniques := 6 },
            { Timestamp := jan26, Count := 46, Uniques := 34 },
            { Timestamp := jan27, Count := 27, Uniques := 20 }]
        LatestCount := 0
        LatestUniques := 0 }
      [{ Timestamp := jan27, Count := 9, Uniques := 6 }]
      [{ Timestamp := jan27, Count := 27, Uniques := 20 }]
      { Timestamp := jan26, Count := 46, Uniques := 34 }
      (by decide) rfl rfl (by decide) (by decide)⟩

/-- C7: at a body without entries that carries members named LatestCount and
LatestUniques, fetched with status 200, `getViewsData` returns 7 and 3 for a
day that no entry has, and no error. -/
theorem getViewsData_preset_fields :
    decodedViews (sampleEnv presetServe) [] (hoverflyURL ++ "/traffic/views")
      = some { Views := [], LatestCount := 7, LatestUniques := 3 } ∧
    (getViewsData (sampleEnv presetServe) [] (hoverflyURL ++ "/traffic/views") jan27).1
      = Outcome.returned (some { Views := [], LatestCount := 7, LatestUniques := 3 }, none) := by
  decide

/-! ## The downloads parser -/

theorem wrapInt_add_wrapInt (a b : Int) : wrapInt (wrapInt a + b) = wrapInt (a + b) := by
  unfold wrapInt
  have h : (a + 2 ^ (intBits - 1)) % 2 ^ intBits - 2 ^ (intBits - 1) + b + 2 ^ (intBits - 1)
      = (a + 2 ^ (intBits - 1)) % 2 ^ intBits + b := by ring
  rw [h, Int.emod_add_emod]
  have h2 : a + 2 ^ (intBits - 1) + b = a + b + 2 ^ (intBits - 1) := by ring
  rw [h2]

theorem wrapInt_of_range (x : Int) (hlo : -(2 ^ 63) ≤ x) (hhi : x < 2 ^ 63) : wrapInt x = x := by
  unfold wrapInt intBits
  have h : (x + 2 ^ (64 - 1)) % 2 ^ 64 = x + 2 ^ (64 - 1) := by
    apply Int.emod_eq_of_lt
    · norm_num
      linarith
    · norm_num
      linarith
  rw [h]
  ring

theorem assetsLoop_eq (as : List Asset) :
    ∀ init : Int,
      as.foldl (fun dls a => goAdd dls a.DownloadCount) (wrapInt init)
        = wrapInt (init + (as.map (fun a => a.DownloadCount)).sum) := by
  induction as with
  | nil => intro init; simp
  | cons a as ih =>
    intro init
    have hstep : goAdd (wrapInt init) a.DownloadCount = wrapInt (init + a.DownloadCount) := by
      unfold goAdd
      exact wrapInt_add_wrapInt init a.DownloadCount
    simp only [List.foldl_cons, List.map_cons, List.sum_cons]
    rw [hstep, ih, add_assoc]

theorem downloadsLoop_eq (rs : ReleasesData) :
    ∀ init : Int, downloadsLoop rs (wrapInt init) = wrapInt (init + totalDownloads rs) := by
  induction rs with
  | nil => intro init; simp [downloadsLoop, totalDownloads]
  | cons r rs ih =>
    intro init
    have hstep : downloadsLoop (r :: rs) (wrapInt init)
        = downloadsLoop rs
            (r.Assets.foldl (fun dls a => goAdd dls a.DownloadCount) (wrapInt init)) := rfl
    rw [hstep, assetsLoop_eq, ih]
    simp [totalDownloads, add_assoc]

theorem wrapInt_zero : wrapInt 0 = 0 := by decide

theorem getDownloadCount_eq (env : Env) (log : Log) (url : String) :
    getDownloadCount env log url
      = ((downloadsLoop (decodedReleases env log url) 0, (requestResult env log url).2),
          (request env log url).2) := rfl

/-- C3, as the code has it: for every decoded list of releases
`getDownloadCount` returns the sum of `download_count` over every asset of
every release, nothing filtered, reduced into the range of Go `int` by
two's-complement wrap-around; it is the exact sum whenever that lies between
-2^63 and 2^63 - 1. For the payload of two releases with assets 5 and 3, 2
the result is 10; for no releases, and for releases without assets, it is 0. -/
theorem getDownloadCount_wrapped_sum :
    (∀ (env : Env) (log : Log) (url : String),
      (getDownloadCount env log url).1.1
        = wrapInt (totalDownloads (decodedReleases env log url))) ∧
    (∀ (env : Env) (log : Log) (url : String),
      -(2 ^ 63) ≤ totalDownloads (decodedReleases env log url) →
      totalDownloads (decodedReleases env log url) < 2 ^ 63 →
      (getDownloadCount env log url).1.1 = totalDownloads (decodedReleases env log url)) ∧
    (∀ (env : Env) (log : Log) (url : String) (t1 t2 n1 n2 a1 a2 a3 : String) (p1 p2 : Time),
      decodedReleases env log url
        = [{ TagName := t1, Name := n1, PublishedAt := p1,
             Assets := [{ Name := a1, DownloadCount := 5 }] },
           { TagName := t2, Name := n2, PublishedAt := p2,
             Assets := [{ Name := a2, DownloadCount := 3 }, { Name := a3, DownloadCount := 2 }] }] →
      (getDownloadCount env log url).1.1 = 10) ∧
    (∀ (env : Env) (log : Log) (url : String),
      (∀ r ∈ decodedReleases env log url, r.Assets = []) →
      (getDownloadCount env log url).1.1 = 0) := by
  have main : ∀ (env : Env) (log : Log) (url : String),
      (getDownloadCount env log url).1.1
        = wrapInt (totalDownloads (decodedReleases env log url)) := by
    intro env log url
    rw [getDownloadCount_eq]
    have h := downloadsLoop_eq (decodedReleases env log url) 0
    rw [wrapInt_zero, zero_add] at h
    exact h
  refine ⟨main, ?_, ?_, ?_⟩
  · intro env log url hlo hhi
    rw [main, wrapInt_of_range _ hlo hhi]
  · intro env log url t1 t2 n1 n2 a1 a2 a3 p1 p2 hdec
    rw [main, hdec]
    have ht : totalDownloads
        [{ TagName := t1, Name := n1, PublishedAt := p1,
           Assets := [{ Name := a1, DownloadCount := 5 }] },
         { TagName := t2, Name := n2, PublishedAt := p2,
           Assets := [{ Name := a2, DownloadCount := 3 }, { Name := a3, DownloadCount := 2 }] }]
        = 10 := by
      simp [totalDownloads]
    rw [ht]
    decide
  · intro env log url hno
    rw [main]
    have hz : totalDownloads (decodedReleases env log url) = 0 := by
      unfold totalDownloads
      generalize decodedReleases env log url = rs at hno
      induction rs with
      | nil => rfl
      | cons r rs ih =>
        have hr : r.Assets = [] := hno r (List.mem_cons_self r rs)
        have ih2 := ih (fun q hq => hno q (List.mem_cons_of_mem r hq))
        simpa [hr] using ih2
    rw [hz]
    decide

/-- Witness for C3 on the sample releases body: assets 5 and 3, 2 give 10. -/
theorem getDownloadCount_wrapped_sum_witness :
    (getDownloadCount (sampleEnv hoverflyServe) [] (hoverflyURL ++ "/releases")).1.1 = 10 ∧
    (getDownloadCount (sampleEnv hoverflyServe) [] (hoverflyURL ++ "/releases")).1.1
      = totalDownloads
          (decodedReleases (sampleEnv hoverflyServe) [] (hoverflyURL ++ "/releases")) ∧
    (getDownloadCount (sampleEnv []) [] (hoverflyURL ++ "/releases")).1.1 = 0 :=
  ⟨getDownloadCount_wrapped_sum.2.2.1 (sampleEnv hoverflyServe) []
      (hoverflyURL ++ "/releases") "" "" "" "" "" "" "" zeroTime zeroTime (by decide),
    getDownloadCount_wrapped_sum.2.1 (sampleEnv hoverflyServe) []
      (hoverflyURL ++ "/releases") (by decide) (by decide),
    getDownloadCount_wrapped_sum.2.2.2 (sampleEnv []) []
      (hoverflyURL ++ "/releases") (by decide)⟩

/-- C3 as stated fails: with two assets whose counts are 9223372036854775807
and 1 the sum is 2^63, and `getDownloadCount` returns -2^63. -/
theorem getDownloadCount_sum_overflows :
    totalDownloads (decodedReleases (sampleEnv hugeServe) [] (hoverflyURL ++ "/releases"))
      = 9223372036854775808 ∧
    (getDownloadCount (sampleEnv hugeServe) [] (hoverflyURL ++ "/releases")).1
      = (-9223372036854775808, none) ∧
    (getDownloadCount (sampleEnv hugeServe) [] (hoverflyURL ++ "/releases")).1.1
      ≠ totalDownloads
          (decodedReleases (sampleEnv hugeServe) [] (hoverflyURL ++ "/releases")) := by
  decide

/-! ## The parsers seen from `getData` -/

theorem getRepoData_eq (env : Env) (log : Log) (url : String) :
    getRepoData env log url
      = ((decodedRepo env log url, (requestResult env log url).2), (request env log url).2) :=
  rfl

theorem decodedViews_of_err (env : Env) (log : Log) (url : String) (e : GoError)
    (h : (requestResult env log url).2 = some e) :
    decodedViews env log url = some { Views := [], LatestCount := 0, LatestUniques := 0 } := by
  unfold decodedViews
  rw [requestResult_nil_of_err env log url e h, jsonUnmarshal_nil]

theorem decodedClones_of_err (env : Env) (log : Log) (url : String) (e : GoError)
    (h : (requestResult env log url).2 = some e) :
    decodedClones env log url = some { Clones := [], LatestCount := 0, LatestUniques := 0 } := by
  unfold decodedClones
  rw [requestResult_nil_of_err env log url e h, jsonUnmarshal_nil]

/-- A failed fetch makes `getViewsData` return the error, with the log one
entry longer. -/
theorem getViewsData_of_err (env : Env) (log : Log) (url : String) (day : Time) (e : GoError)
    (h : (requestResult env log url).2 = some e) :
    getViewsData env log url day
      = (Outcome.returned
          (some { Views := [], LatestCount := 0, LatestUniques := 0 }, some e),
          log ++ [{ url := url, body := [], err := some e }]) := by
  rw [getViewsData_eq, decodedViews_of_err env log url e h, request_snd,
    requestResult_nil_of_err env log url e h, h]
  rfl

/-- A failed fetch makes `getClonesData` return the error, with the log one
entry longer. -/
theorem getClonesData_of_err (env : Env) (log : Log) (url : String) (day : Time) (e : GoError)
    (h : (requestResult env log url).2 = some e) :
    getClonesData env log url day
      = (Outcome.returned
          (some { Clones := [], LatestCount := 0, LatestUniques := 0 }, some e),
          log ++ [{ url := url, body := [], err := some e }]) := by
  rw [getClonesData_eq, decodedClones_of_err env log url e h, request_snd,
    requestResult_nil_of_err env log url e h, h]
  rfl

/-- The shapes a run of `getData` from the empty log can have: the value it
produces and the fetches it made. -/
theorem getData_cases (env : Env) (owner repo : String) (day : Time) :
    (∃ e,
      getData env [] owner repo day
        = (Outcome.returned (none, some e),
            [{ url := (buildURLs owner repo).get "repo", body := [], err := some e }])) ∨
    (∃ b1 b2,
      decodedViews env [{ url := (buildURLs owner repo).get "repo", body := b1, err := none }]
        ((buildURLs owner repo).get "views") = none ∧
      getData env [] owner repo day
        = (Outcome.panicked,
            [{ url := (buildURLs owner repo).get "repo", body := b1, err := none },
              { url := (buildURLs owner repo).get "views", body := b2, err := none }])) ∨
    (∃ b1 e,
      getData env [] owner repo day
        = (Outcome.returned (none, some e),
            [{ url := (buildURLs owner repo).get "repo", body := b1, err := none },
              { url := (buildURLs owner repo).get "views", body := [], err := some e }])) ∨
    (∃ b1 b2 b3,
      decodedClones env
        [{ url := (buildURLs owner repo).get "repo", body := b1, err := none },
          { url := (buildURLs owner repo).get "views", body := b2, err := none }]
        ((buildURLs owner repo).get "clones") = none ∧
      getData env [] owner repo day
        = (Outcome.panicked,
            [{ url := (buildURLs owner repo).get "repo", body := b1, err := none },
              { url := (buildURLs owner repo).get "views", body := b2, err := none },
              { url := (buildURLs owner repo).get "clones", body := b3, err := none }])) ∨
    (∃ b1 b2 e,
      getData env [] owner repo day
        = (Outcome.returned (none, some e),
            [{ url := (buildURLs owner repo).get "repo", body := b1, err := none },
              { url := (buildURLs owner repo).get "views", body := b2, err := none },
              { url := (buildURLs owner repo).get "clones", body := [], err := some e }])) ∨
    (∃ b1 b2 b3 e,
      getData env [] owner repo day
        = (Outcome.returned (none, some e),
            [{ url := (buildURLs owner repo).get "repo", body := b1, err := none },
              { url := (buildURLs owner repo).get "views", body := b2, err := none },
              { url := (buildURLs owner repo).get "clones", body := b3, err := none },
              { url := (buildURLs owner repo).get "rels", body := [], err := some e }])) ∨
    (∃ b1 b2 b3 b4,
      decodedRepo env [] ((buildURLs owner repo).get "repo") = none ∧
      getData env [] owner repo day
        = (Outcome.panicked,
            [{ url := (buildURLs owner repo).get "repo", body := b1, err := none },
              { url := (buildURLs owner repo).get "views", body := b2, err := none },
              { url := (buildURLs owner repo).get "clones", body := b3, err := none },
              { url := (buildURLs owner repo).get "rels", body := b4, err := none }])) ∨
    (∃ b1 b2 b3 b4 r,
      getData env [] owner repo day
        = (Outcome.returned (some r, none),
            [{ url := (buildURLs owner repo).get "repo", body := b1, err := none },
              { url := (buildURLs owner repo).get "views", body := b2, err := none },
              { url := (buildURLs owner repo).get "clones", body := b3, err := none },
              { url := (buildURLs owner repo).get "rels", body := b4, err := none }])) := by
  generalize hu1 : (buildURLs owner repo).get "repo" = u1
  generalize hu2 : (buildURLs owner repo).get "views" = u2
  generalize hu3 : (buildURLs owner repo).get "clones" = u3
  generalize hu4 : (buildURLs owner repo).get "rels" = u4
  unfold getData
  simp only [hu1, hu2, hu3, hu4]
  rw [getRepoData_eq]
  cases h1 : (requestResult env [] u1).2 with
  | some e =>
    left
    refine ⟨e, ?_⟩
    simp [request_snd, h1, requestResult_nil_of_err env [] u1 e h1]
  | none =>
    right
    simp only [request_snd, h1, List.nil_append]
    generalize hb1 : (requestResult env [] u1).1 = b1
    generalize hL1 : ([{ url := u1, body := b1, err := none }] : Log) = L1
    cases h2 : (requestResult env L1 u2).2 with
    | some e =>
      right; left
      refine ⟨b1, e, ?_⟩
      rw [getViewsData_of_err env L1 u2 day e h2, ← hL1]
      rfl
    | none =>
      rw [getViewsData_eq]
      cases hv : decodedViews env L1 u2 with
      | none =>
        left
        refine ⟨b1, (requestResult env L1 u2).1, by rw [hL1]; exact hv, ?_⟩
        simp only [request_snd, h2]
        rw [← hL1]
        rfl
      | some vs =>
        right; right
        simp only [request_snd, h2]
        generalize hb2 : (requestResult env L1 u2).1 = b2
        generalize hL2 : (L1 ++ [{ url := u2, body := b2, err := none }] : Log) = L2
        have hL2eq : L2 = [{ url := u1, body := b1, err := none },
            { url := u2, body := b2, err := none }] := by
          rw [← hL2, ← hL1]; rfl
        cases h3 : (requestResult env L2 u3).2 with
        | some e =>
          right; left
          refine ⟨b1, b2, e, ?_⟩
          rw [getClonesData_of_err env L2 u3 day e h3, hL2eq]
          rfl
        | none =>
          rw [getClonesData_eq]
          cases hc : decodedClones env L2 u3 with
          | none =>
            left
            refine ⟨b1, b2, (requestResult env L2 u3).1, by rw [← hL2eq]; exact hc, ?_⟩
            simp only [request_snd, h3]
            rw [hL2eq]
            rfl
          | some cs =>
            right; right
            simp only [request_snd, h3]
            generalize hb3 : (requestResult env L2 u3).1 = b3
            generalize hL3 : (L2 ++ [{ url := u3, body := b3, err := none }] : Log) = L3
            have hL3eq : L3 = [{ url := u1, body := b1, err := none },
                { url := u2, body := b2, err := none },
                { url := u3, body := b3, err := none }] := by
              rw [← hL3, hL2eq]; rfl
            rw [getDownloadCount_eq]
            cases h4 : (requestResult env L3 u4).2 with
            | some e =>
              left
              refine ⟨b1, b2, b3, e, ?_⟩
              simp only [request_snd, h4, requestResult_nil_of_err env L3 u4 e h4]
              rw [hL3eq]
              rfl
            | none =>
              right
              cases hr : decodedRepo env [] u1 with
              | none =>
                left
                refine ⟨b1, b2, b3, (requestResult env L3 u4).1, rfl, ?_⟩
                simp only [request_snd, h4]
                rw [hL3eq]
                rfl
              | some rd =>
                right
                refine ⟨b1, b2, b3, (requestResult env L3 u4).1,
                  { Owner := owner
                    Repo := repo
                    Date := env.today
                    Stars := rd.Stars
                    Forks := rd.Forks
                    Issues := rd.Issues
                    Views := (viewsLoop day vs).LatestCount
                    UniqueViews := (viewsLoop day vs).LatestUniques
                    Clones := (clonesLoop day cs).LatestCount
                    UniqueClones := (clonesLoop day cs).LatestUniques
                    Downloads := downloadsLoop (decodedReleases env L3 u4) 0 }, ?_⟩
                simp only [request_snd, h4]
                rw [hL3eq]
                rfl

/-! ## The orchestrator -/

/-- C4: in a run of `getData`, if the fetch at position `k` of the sequence
metadata, views, clones, downloads (counted from 0) failed with error `e`,
then every fetch before it succeeded, `getData` returns no snapshot together
with exactly `e`, and the run made `k + 1` fetches, the first `k + 1` URLs of
the sequence, so none after the failed one. In particular, when the metadata
fetch fails, the run consists of that one fetch. -/
theorem getData_stops_at_failed_fetch :
    (∀ (env : Env) (owner repo : String) (day : Time) (k : Nat) (f : Fetch) (e : GoError),
      (getData env [] owner repo day).2[k]? = some f →
      f.err = some e →
      (getData env [] owner repo day).1 = Outcome.returned (none, some e) ∧
      (getData env [] owner repo day).2.length = k + 1 ∧
      (getData env [] owner repo day).2.map Fetch.url = (fetchOrder owner repo).take (k + 1) ∧
      (∀ (j : Nat) (g : Fetch), j < k →
        (getData env [] owner repo day).2[j]? = some g → g.err = none)) ∧
    (∀ (env : Env) (owner repo : String) (day : Time) (e : GoError),
      (request env [] ((buildURLs owner repo).get "repo")).1.2 = some e →
      getData env [] owner repo day
        = (Outcome.returned (none, some e),
            [{ url := (buildURLs owner repo).get "repo", body := [], err := some e }])) := by
  constructor
  · intro env owner repo day k f e hk hf
    rcases getData_cases env owner repo day with
      ⟨e1, h⟩ | ⟨b1, b2, _, h⟩ | ⟨b1, e1, h⟩ | ⟨b1, b2, b3, _, h⟩ | ⟨b1, b2, e1, h⟩ |
      ⟨b1, b2, b3, e1, h⟩ | ⟨b1, b2, b3, b4, _, h⟩ | ⟨b1, b2, b3, b4, r, h⟩
    all_goals
      simp only [h] at hk ⊢
      rcases k with _ | _ | _ | _ | k
      all_goals
        simp at hk
    all_goals
      subst hk
      simp at hf
    all_goals
      subst hf
      refine ⟨rfl, rfl, by simp [fetchOrder], ?_⟩
      intro j g hj hg
      rcases j with _ | _ | _ | j
      all_goals simp at hg
      all_goals first | omega | (subst hg; rfl)
  · intro env owner repo day e he
    unfold getData
    dsimp only
    rw [getRepoData_eq]
    rw [request_fst] at he
    simp [request_snd, he, requestResult_nil_of_err env [] _ e he]

/-- Witness for C4: with the clones endpoint answering 500 the run returns
that error after three fetches; with every endpoint answering 404 it returns
after the metadata fetch alone. -/
theorem getData_stops_at_failed_fetch_witness :
    ((getData (sampleEnv clonesDownServe) [] "spectolabs" "hoverfly" jan27).1
        = Outcome.returned
            (none,
              some (GoError.errorf
                "https://api.github.com/repos/spectolabs/hoverfly/traffic/clones returned 500")) ∧
      (getData (sampleEnv clonesDownServe) [] "spectolabs" "hoverfly" jan27).2.length = 2 + 1 ∧
      (getData (sampleEnv clonesDownServe) [] "spectolabs" "hoverfly" jan27).2.map Fetch.url
        = (fetchOrder "spectolabs" "hoverfly").take (2 + 1) ∧
      (∀ (j : Nat) (g : Fetch), j < 2 →
        (getData (sampleEnv clonesDownServe) [] "spectolabs" "hoverfly" jan27).2[j]? = some g →
        g.err = none)) ∧
    getData (sampleEnv []) [] "spectolabs" "hoverfly" jan27
      = (Outcome.returned
          (none,
            some (GoError.errorf "https://api.github.com/repos/spectolabs/hoverfly returned 404")),
          [{ url := (buildURLs "spectolabs" "hoverfly").get "repo", body := [],
             err := some (GoError.errorf
               "https://api.github.com/repos/spectolabs/hoverfly returned 404") }]) :=
  ⟨getData_stops_at_failed_fetch.1 (sampleEnv clonesDownServe) "spectolabs" "hoverfly" jan27 2
      { url := "https://api.github.com/repos/spectolabs/hoverfly/traffic/clones", body := [],
        err := some (GoError.errorf
          "https://api.github.com/repos/spectolabs/hoverfly/traffic/clones returned 500") }
      (GoError.errorf
        "https://api.github.com/repos/spectolabs/hoverfly/traffic/clones returned 500")
      (by decide) rfl,
    getData_stops_at_failed_fetch.2 (sampleEnv []) "spectolabs" "hoverfly" jan27
      (GoError.errorf "https://api.github.com/repos/spectolabs/hoverfly returned 404")
      (by decide)⟩

/-- The fields of the snapshot: when the four parsers, run in the order of
`getData`, return their records `rd`, `vc`, `cc` and the count `dc` without
error, `getData` returns the snapshot with Owner and Repo the arguments,
Stars, Forks, Issues those of `rd`, Views and UniqueViews the LatestCount and
LatestUniques of `vc`, Clones and UniqueClones those of `cc`, Downloads `dc`,
and Date the value of `today`, for every value of the day argument. -/
theorem getData_snapshot_fields (env : Env) (owner repo : String) (day : Time)
    (rd : RepoData) (vc : ViewsData) (cc : ClonesData) (dc : Int) (log1 log2 log3 log4 : Log)
    (h1 : getRepoData env [] ((buildURLs owner repo).get "repo") = ((some rd, none), log1))
    (h2 : getViewsData env log1 ((buildURLs owner repo).get "views") day
      = (Outcome.returned (some vc, none), log2))
    (h3 : getClonesData env log2 ((buildURLs owner repo).get "clones") day
      = (Outcome.returned (some cc, none), log3))
    (h4 : getDownloadCount env log3 ((buildURLs owner repo).get "rels") = ((dc, none), log4)) :
    getData env [] owner repo day
      = (Outcome.returned
          (some
            { Owner := owner
              Repo := repo
              Date := env.today
              Stars := rd.Stars
              Forks := rd.Forks
              Issues := rd.Issues
              Views := vc.LatestCount
              UniqueViews := vc.LatestUniques
              Clones := cc.LatestCount
              UniqueClones := cc.LatestUniques
              Downloads := dc },
            none),
          log4) := by
  unfold getData
  dsimp only
  rw [h1]
  dsimp only
  rw [h2]
  dsimp only
  rw [h3]
  dsimp only
  rw [h4]

/-- The fields of the snapshot in the sample world for spectolabs/hoverfly,
asked for 2017-01-27 on 2017-01-28. -/
theorem getData_snapshot_fields_sample :
    (getData (sampleEnv hoverflyServe) [] "spectolabs" "hoverfly" jan27).1
      = Outcome.returned
          (some
            { Owner := "spectolabs"
              Repo := "hoverfly"
              Date := (sampleEnv hoverflyServe).today
              Stars := 663
              Forks := 50
              Issues := 20
              Views := 27
              UniqueViews := 20
              Clones := 7
              UniqueClones := 4
              Downloads := 10 },
            none) :=
  congrArg Prod.fst
    (getData_snapshot_fields (sampleEnv hoverflyServe) "spectolabs" "hoverfly" jan27
      { Stars := 663, Forks := 50, Issues := 20 }
      { Views :=
          [{ Timestamp := jan27, Count := 9, Uniques := 6 },
            { Timestamp := jan26, Count := 46, Uniques := 34 },
            { Timestamp := jan27, Count := 27, Uniques := 20 }]
        LatestCount := 27
        LatestUniques := 20 }
      { Clones := [{ Timestamp := jan27, Count := 7, Uniques := 4 }]
        LatestCount := 7
        LatestUniques := 4 }
      10
      (getRepoData (sampleEnv hoverflyServe) [] hoverflyURL).2
      (getViewsData (sampleEnv hoverflyServe)
        (getRepoData (sampleEnv hoverflyServe) [] hoverflyURL).2
        (hoverflyURL ++ "/traffic/views") jan27).2
      (getClonesData (sampleEnv hoverflyServe)
        (getViewsData (sampleEnv hoverflyServe)
          (getRepoData (sampleEnv hoverflyServe) [] hoverflyURL).2
          (hoverflyURL ++ "/traffic/views") jan27).2
        (hoverflyURL ++ "/traffic/clones") jan27).2
      (getDownloadCount (sampleEnv hoverflyServe)
        (getClonesData (sampleEnv hoverflyServe)
          (getViewsData (sampleEnv hoverflyServe)
            (getRepoData (sampleEnv hoverflyServe) [] hoverflyURL).2
            (hoverflyURL ++ "/traffic/views") jan27).2
          (hoverflyURL ++ "/traffic/clones") jan27).2
        (hoverflyURL ++ "/releases")).2
      (by decide) (by decide) (by decide) (by decide))

/-- C6: run on 2017-01-28 and asked for 2017-01-27, with all four fetches
successful, `getData` returns a snapshot whose Date is 2017-01-28, not the
day it was given. -/
theorem getData_date_differs_from_day :
    (sampleEnv hoverflyServe).today = jan28 ∧
    (getData (sampleEnv hoverflyServe) [] "spectolabs" "hoverfly" jan27).1
      = Outcome.returned
          (some
            { Owner := "spectolabs"
              Repo := "hoverfly"
              Date := jan28
              Stars := 663
              Forks := 50
              Issues := 20
              Views := 27
              UniqueViews := 20
              Clones := 7
              UniqueClones := 4
              Downloads := 10 },
            none) ∧
    jan28 ≠ jan27 := by
  decide

/-- C9: when the metadata endpoint answers 200 with the body null and the
other three endpoints answer 200 as usual, all four fetches succeed and
`getData` returns nothing: it stops on a nil pointer dereference. -/
theorem getData_null_metadata_panics :
    (getData (sampleEnv nullRepoServe) [] "spectolabs" "hoverfly" jan27).1 = Outcome.panicked ∧
    (getData (sampleEnv nullRepoServe) [] "spectolabs" "hoverfly" jan27).2.map Fetch.url
      = fetchOrder "spectolabs" "hoverfly" ∧
    (getData (sampleEnv nullRepoServe) [] "spectolabs" "hoverfly" jan27).2.map Fetch.err
      = [none, none, none, none] ∧
    (getData (sampleEnv nullRepoServe) [] "spectolabs" "hoverfly" jan27).2.map Fetch.body
      = [asciiBytes "null", viewsBody, clonesBody, relsBody] ∧
    getRepoData (sampleEnv nullRepoServe) [] hoverflyURL
      = ((none, none), [{ url := hoverflyURL, body := asciiBytes "null", err := none }]) := by
  decide

/-- C5: when the metadata endpoint answers 200 with the body null, a run of
`getData` for 2017-01-26 makes all four fetches and each of them succeeds,
the metadata record that `getRepoData` hands back is nil, and `getData`
returns no snapshot at all, so no snapshot with the fields of the parsed
records. -/
theorem getData_four_fetches_no_snapshot :
    (getData (sampleEnv nullRepoServe) [] "spectolabs" "hoverfly" jan26).2.length = 4 ∧
    (∀ f ∈ (getData (sampleEnv nullRepoServe) [] "spectolabs" "hoverfly" jan26).2,
      f.err = none) ∧
    (getRepoData (sampleEnv nullRepoServe) []
      ((buildURLs "spectolabs" "hoverfly").get "repo")).1 = (none, none) ∧
    (∀ r : Repo,
      (getData (sampleEnv nullRepoServe) [] "spectolabs" "hoverfly" jan26).1
        ≠ Outcome.returned (some r, none)) := by
  refine ⟨by decide, by decide, by decide, ?_⟩
  intro r hr
  have hp : (getData (sampleEnv nullRepoServe) [] "spectolabs" "hoverfly" jan26).1
      = Outcome.panicked := by decide
  rw [hp] at hr
  cases hr

/-- What holds of C9 on the code: a run of `getData` returns an error exactly
when one of the fetches it made failed. -/
theorem getData_error_iff_failed_fetch (env : Env) (owner repo : String) (day : Time) :
    (∃ e, (getData env [] owner repo day).1 = Outcome.returned (none, some e)) ↔
      ∃ f ∈ (getData env [] owner repo day).2, f.err ≠ none := by
  rcases getData_cases env owner repo day with
    ⟨e1, h⟩ | ⟨b1, b2, _, h⟩ | ⟨b1, e1, h⟩ | ⟨b1, b2, b3, _, h⟩ | ⟨b1, b2, e1, h⟩ |
    ⟨b1, b2, b3, e1, h⟩ | ⟨b1, b2, b3, b4, _, h⟩ | ⟨b1, b2, b3, b4, r, h⟩
  all_goals
    simp [h]

/-- What holds of C9 on the code: when decoding leaves the three record
pointers non-nil, a run of `getData` either makes four successful fetches and
returns a snapshot and no error, whatever the bodies are, or returns the
error of a failed fetch. -/
theorem getData_returns_when_records_exist (env : Env) (owner repo : String) (day : Time)
    (hr : decodedRepo env [] ((buildURLs owner repo).get "repo") ≠ none)
    (hv : ∀ log, decodedViews env log ((buildURLs owner repo).get "views") ≠ none)
    (hc : ∀ log, decodedClones env log ((buildURLs owner repo).get "clones") ≠ none) :
    ((∃ r, (getData env [] owner repo day).1 = Outcome.returned (some r, none)) ∧
      (getData env [] owner repo day).2.length = 4 ∧
      ∀ f ∈ (getData env [] owner repo day).2, f.err = none) ∨
    (∃ e, (getData env [] owner repo day).1 = Outcome.returned (none, some e)) := by
  rcases getData_cases env owner repo day with
    ⟨e1, h⟩ | ⟨b1, b2, hn, h⟩ | ⟨b1, e1, h⟩ | ⟨b1, b2, b3, hn, h⟩ | ⟨b1, b2, e1, h⟩ |
    ⟨b1, b2, b3, e1, h⟩ | ⟨b1, b2, b3, b4, hn, h⟩ | ⟨b1, b2, b3, b4, r, h⟩
  · exact Or.inr ⟨e1, by rw [h]⟩
  · exact absurd hn (hv _)
  · exact Or.inr ⟨e1, by rw [h]⟩
  · exact absurd hn (hc _)
  · exact Or.inr ⟨e1, by rw [h]⟩
  · exact Or.inr ⟨e1, by rw [h]⟩
  · exact absurd hn hr
  · left
    rw [h]
    simp

/-- What holds of C9 on the code: a body that is not valid JSON leaves the
metadata record at its zero values. -/
theorem getRepoData_malformed_body (env : Env) (log : Log) (url : String)
    (hbad : env.jsonValid (requestResult env log url).1 = false) :
    (getRepoData env log url).1.1 = some { Stars := 0, Forks := 0, Issues := 0 } := by
  rw [getRepoData_eq]
  simp [decodedRepo, jsonUnmarshal, hbad]

end GithubMetrics
